import Mathlib

/-!
Shallow embedding of the SoS CFSR graphics-preparation pipeline
(`SOS_CFSR_Lean.ipynb`): directory layout, date-range subsetting,
unit conversion, cyclic-point augmentation, frame rendering file
effects, label writing, and playlist emission.
-/

namespace SosCfsr

/-! ## Decimal rendering and zero padding (Python `str`/`zfill`) -/

/-- Decimal digit character for a residue `r < 10` (total, defaulting to `'0'`). -/
def digitChar : ℕ → Char
  | 0 => '0' | 1 => '1' | 2 => '2' | 3 => '3' | 4 => '4'
  | 5 => '5' | 6 => '6' | 7 => '7' | 8 => '8' | _ => '9'

/-- Fuel-driven decimal rendering accumulating characters most-significant first;
embeds the Python f-string `f'{n}'` digit expansion. -/
def decChars : ℕ → ℕ → List Char → List Char
  | 0, _, acc => acc
  | fuel+1, n, acc =>
    let acc2 := digitChar (n % 10) :: acc
    if n < 10 then acc2 else decChars fuel (n / 10) acc2

/-- Decimal rendering of a natural number, as Python `str(n)` / `f'{n}'`. -/
def toDecimal (n : ℕ) : String := ⟨decChars (n + 1) n []⟩

/-- Python `str.zfill(w)`: left-pad with `'0'` up to width `w`
(inputs here are unsigned digit strings, so no sign handling is needed). -/
def zfill (w : ℕ) (s : String) : String :=
  ⟨List.replicate (w - s.data.length) '0' ++ s.data⟩

/-- `frameNum = f'{timeIdx}'.zfill(2)` from `make_sos_map`. -/
def frameNum (i : ℕ) : String := zfill 2 (toDecimal i)

/-! ## Calendar arithmetic for the configured (non-leap) year 1993

Timestamps are embedded as hours since 1993-01-01 00:00 UTC. -/

def monthLengths1993 : List ℕ := [31, 28, 31, 30, 31, 30, 31, 31, 30, 31, 30, 31]

/-- Walk the month-length table: from a zero-based day offset produce the
1-based (month, day) pair, months counted from `m`. -/
def monthDayFrom : List ℕ → ℕ → ℕ → ℕ × ℕ
  | [], m, d => (m, d + 1)
  | len :: rest, m, d => if d < len then (m, d + 1) else monthDayFrom rest (m + 1) (d - len)

/-- Month and day (both 1-based) of a zero-based day-of-year in 1993. -/
def monthDay (doy : ℕ) : ℕ × ℕ := monthDayFrom monthLengths1993 1 doy

/-- Zero-based day-of-year in 1993 of a (1-based) month/day. -/
def dayOfYear1993 (m d : ℕ) : ℕ := (monthLengths1993.take (m - 1)).sum + (d - 1)

/-- Hours since 1993-01-01 00:00 of the datetime (1993, m, d, h, 0). -/
def hoursOf (m d h : ℕ) : ℕ := 24 * dayOfYear1993 m d + h

/-! ## Date/time configuration of the run -/

def startYear : ℕ := 1993

/-- `startDateTime = dt(1993, 3, 9, 0, 0)` as hours since the year start. -/
def startHours : ℕ := hoursOf 3 9 0

/-- `endDateTime = dt(1993, 3, 15, 18, 0)` as hours since the year start. -/
def endHours : ℕ := hoursOf 3 15 18

/-- `pd.date_range(start, end, freq="6H")`: timestamps `start, start+step, …`
up to and including `end` when the span divides evenly. -/
def date_range (a b step : ℕ) : List ℕ :=
  if b < a ∨ step = 0 then []
  else (List.range ((b - a) / step + 1)).map (fun k => a + step * k)

/-- `dateList = pd.date_range(startDateTime, endDateTime, freq="6H")`. -/
def dateList : List ℕ := date_range startHours endHours 6

/-- `nTimes = len(dateList)`. -/
def nTimes : ℕ := dateList.length

/-- `pLevel = 850`, the selected pressure level in hPa. -/
def pLevel : ℤ := 850

/-! ## Directory layout -/

def caseDir : String := "SS1993"
def prodDir : String := "850T_Z_Wind"
def graphicsDir : String := caseDir ++ "/" ++ prodDir ++ "/2048/"
def labelsDir : String := caseDir ++ "/" ++ prodDir ++ "/labels/"
def mediaDir : String := caseDir ++ "/" ++ prodDir ++ "/media/"
def playlistDir : String := caseDir ++ "/" ++ prodDir ++ "/playlist/"

/-- `strftime("%m/%d/%Y %H UTC")` of a timestamp (hours since the 1993 year
start): zero-padded month, day, four-digit year, zero-padded hour. -/
def fmtTime (t : ℕ) : String :=
  let md := monthDay (t / 24)
  zfill 2 (toDecimal md.1) ++ "/" ++ zfill 2 (toDecimal md.2) ++ "/" ++
    zfill 4 (toDecimal startYear) ++ " " ++ zfill 2 (toDecimal (t % 24)) ++ " UTC"

/-! ## Units and unit conversion (`metpy convert_units`) -/

/-- The physical units appearing in the pipeline. -/
inductive MetUnit
  | m | dam | mps | kts | K | degC
  deriving DecidableEq, Repr

/-- Convert one value between units; `none` when the conversion is not one the
pipeline performs (metpy raises on incompatible dimensionality).
One knot is 1852 m per 3600 s; 0 °C is 273.15 K; 1 dam is 10 m. -/
def convertVal : MetUnit → MetUnit → ℚ → Option ℚ
  | .m, .dam, x => some (x / 10)
  | .mps, .kts, x => some (x * 3600 / 1852)
  | .K, .degC, x => some (x - 5463 / 20)
  | u, v, x => if u = v then some x else none

/-- Option-valued map over a list; `none` as soon as one element fails. -/
def mapOpt (f : α → Option β) : List α → Option (List β)
  | [] => some []
  | a :: l =>
    match f a, mapOpt f l with
    | some b, some bs => some (b :: bs)
    | _, _ => none

/-! ## Gridded data model

A `Dataset` is one opened NetCDF file: a single 4-D variable on a
time × lev × lat × lon grid.  A `DataArray` is the result of selecting a
single pressure level and a list of timestamps from it: a 3-D
time × lat × lon block carrying its coordinate vectors and unit. -/

structure Dataset where
  times : List ℕ
  levs : List ℤ
  lats : List ℚ
  lons : List ℚ
  unit : MetUnit
  values : List (List (List (List ℚ)))
  deriving DecidableEq, Repr

structure DataArray where
  times : List ℕ
  lats : List ℚ
  lons : List ℚ
  lev : ℤ
  unit : MetUnit
  values : List (List (List ℚ))
  deriving DecidableEq, Repr

/-- Extract the lat × lon slice of `ds` at timestamp `d` and level `p`
(label-based lookup, as xarray `.sel`); `none` when either label is absent. -/
def selSlice (ds : Dataset) (d : ℕ) (p : ℤ) : Option (List (List ℚ)) := do
  let ti ← ds.times.findIdx? (· = d)
  let li ← ds.levs.findIdx? (· = p)
  let tslice ← ds.values[ti]?
  tslice[li]?

/-- `ds['v'].sel(time=dateList, lev=pLevel)`: label-based selection along the
time and level dimensions only; latitudes and longitudes are untouched. -/
def Dataset.sel (ds : Dataset) (dl : List ℕ) (p : ℤ) : Option DataArray :=
  (mapOpt (fun d => selSlice ds d p) dl).map
    (fun rows => ⟨dl, ds.lats, ds.lons, p, ds.unit, rows⟩)

/-- `A.metpy.convert_units(u)`: rescale every value from `A`'s unit to `u`,
leaving every coordinate vector unchanged. -/
def DataArray.convert_units (a : DataArray) (u : MetUnit) : Option DataArray :=
  (mapOpt (fun plane => mapOpt (fun row => mapOpt (convertVal a.unit u) row) plane)
      a.values).map
    (fun vs => ⟨a.times, a.lats, a.lons, a.lev, u, vs⟩)

/-- `A.isel(time=i)`: the 2-D lat × lon slice at time index `i`. -/
def DataArray.sliceAt (a : DataArray) (i : ℕ) : List (List ℚ) :=
  a.values.getD i []

/-- Modelled from the spec: `cartopy.util.add_cyclic_point` is library code not
part of this repository.  Per the spec it appends a duplicate of the field's
first longitude column as a new last column, and extends the longitude vector
by one entry at 360° (the first longitude plus 360). -/
def add_cyclic_point (data : List (List ℚ)) (coord : List ℚ) :
    List (List ℚ) × List ℚ :=
  (data.map (fun row => match row with | [] => [] | x :: _ => row ++ [x]),
   match coord with | [] => [] | x :: _ => coord ++ [x + 360])

/-- Modelled from the spec: the latitude vector is not passed through
`add_cyclic_point`; the code's comment reads "latitudes are unchanged in
1-dimension" and the renderers keep using the original `lats`. -/
def cyclicLats (lats : List ℚ) : List ℚ := lats

/-! ## Contour levels -/

/-- `np.arange(a, b, s)` over integers, for the positive steps used here. -/
def arange (a b s : ℤ) : List ℤ :=
  if s ≤ 0 then []
  else (List.range ((b - a + s - 1) / s).toNat).map (fun k => a + s * k)

/-- `tLevels = np.arange(-45, 39, 3)`. -/
def tLevels : List ℤ := arange (-45) 39 3

/-- The `if/elif` chain assigning `zLevels` from `pLevel`; `none` embeds the
fall-through case in which the name `zLevels` is never bound. -/
def zLevelsFor (p : ℤ) : Option (List ℤ) :=
  if p = 1000 then some (arange (-90) 63 3)
  else if p = 850 then some (arange 60 183 3)
  else if p = 700 then some (arange 201 339 3)
  else if p = 500 then some (arange 468 606 6)
  else if p = 300 then some (arange 765 1008 9)
  else if p = 200 then some (arange 999 1305 9)
  else none

/-! ## File-system effects

The file system is a list of file paths (no duplicates are ever introduced:
saving is insert-if-absent). -/

/-- Save (create or overwrite) a file. -/
def saveFile (fs : List String) (f : String) : List String :=
  if f ∈ fs then fs else fs ++ [f]

/-- `rm -f f`. -/
def removeFile (fs : List String) (f : String) : List String :=
  fs.filter (fun g => g ≠ f)

/-- Does the shell glob `dir*.png` match path `f`?  The `*` matches any
non-empty-or-empty run of characters of the file name except `/`, and a glob
does not match a name starting with a dot. -/
def globPng (dir f : String) : Bool :=
  decide (dir.data <+: f.data) &&
    (let nm := f.data.drop dir.data.length
     decide (([ '.', 'p', 'n', 'g' ] : List Char) <:+ nm) &&
       decide ('/' ∉ nm) && decide (nm.head? ≠ some ('.' : Char)))

/-- `! rm -f {graphicsDir}*.png`: delete every PNG directly in the graphics
directory. -/
def deletePriorPngs (fs : List String) : List String :=
  fs.filter (fun f => !(globPng graphicsDir f))

/-- `figName = f'{graphicsDir}CFSR_{caseDir}_{prodDir}_{frameNum}.png'`. -/
def figName (i : ℕ) : String :=
  graphicsDir ++ "CFSR_" ++ caseDir ++ "_" ++ prodDir ++ "_" ++ frameNum i ++ ".png"

/-- Output name of `pngquant -f` on a `.png` input: the code's comment reads
"The output file will end in \x22-fs8.png\x22". -/
def pngquantOut (f : String) : String :=
  ⟨f.data.take (f.data.length - 4) ++ ("-fs8.png").data⟩

/-- The quantized frame file `pngquant` leaves for frame `i`. -/
def quantName (i : ℕ) : String := pngquantOut (figName i)

/-- One recorded external file effect of the renderer. -/
inductive FileEvent
  | save (f : String)
  | pngquant (f : String)
  | remove (f : String)
  deriving DecidableEq, Repr

/-- File effects of `make_sos_map(timeIdx)`: if `zLevels` was never assigned
the height-contour call raises `NameError` before any file is written
(`none`); otherwise the figure is saved to `figName`, `pngquant -f` writes the
`-fs8.png` companion, and the original PNG is removed. -/
def make_sos_map (zOpt : Option (List ℤ)) (fs : List String) (i : ℕ) :
    Option (List FileEvent × List String) :=
  match zOpt with
  | none => none
  | some _ =>
    let f := figName i
    let fs1 := saveFile fs f
    let fs2 := saveFile fs1 (pngquantOut f)
    let fs3 := removeFile fs2 f
    some ([FileEvent.save f, FileEvent.pngquant f, FileEvent.remove f], fs3)

/-! ## Labels -/

/-- `tl1 = f'CFSR {pLevel} hPa Z/T/Wind {valTime} \x5cn'` for the timestamp at
time index `i` of the coordinate vector `times`. -/
def captionLine (times : List ℕ) (i : ℕ) : String :=
  "CFSR " ++ toString pLevel ++ " hPa Z/T/Wind " ++ fmtTime (times.getD i 0) ++ " \n"

/-- The frame loop: for each index render the frame, then append its caption
line to the labels file.  Fails (touching nothing further) as the rendering
would. -/
def runFrames (zOpt : Option (List ℤ)) (times : List ℕ) :
    List String → List String → List ℕ → Option (List String × List String)
  | fs, lines, [] => some (fs, lines)
  | fs, lines, i :: rest =>
    match make_sos_map zOpt fs i with
    | none => none
    | some (_, fs2) => runFrames zOpt times fs2 (lines ++ [captionLine times i]) rest

/-- The whole loop `for timeIdx in range(0, nFrames, 1)` over `n` frames,
starting from file system `fs` and a freshly truncated labels file. -/
def renderRun (zOpt : Option (List ℤ)) (times : List ℕ) (fs : List String)
    (n : ℕ) : Option (List String × List String) :=
  runFrames zOpt times fs [] (List.range n)

/-! ## Playlist -/

def nameStr : String := "CFSR T/Z/Wind Superstorm 93"
def descriptionStr : String := "\x7b\x7bCFSR T/Z/Wind Superstorm 93\x7d\x7d"
def creaName : String := "Rovin Lazyle"
def subCat : String := "CFSR"

/-- The successive `plFileObject.write(...)` strings, in program order; each
is one `key = value` line terminated by the newline `cRet`. -/
def playlistWrites : List String :=
  [ "name = " ++ nameStr ++ "\n",
    "description = " ++ descriptionStr ++ "\n",
    "pip = ../labels/colorbar.png" ++ "\n",
    "pipheight = 10" ++ "\n",
    "pipvertical = -35" ++ "\n",
    "label = ../labels/labels.txt" ++ "\n",
    "layer = Grids" ++ "\n",
    "layerdata = ../2048" ++ "\n",
    "firstdwell = 2000" ++ "\n",
    "lastdwell = 3000" ++ "\n",
    "fps = 8" ++ "\n",
    "zrotationenable = 1" ++ "\n",
    "zfps = 30" ++ "\n",
    "subcategory = " ++ subCat ++ "\n",
    "Creator = " ++ creaName ++ "\n" ]

/-! ## Opened input files -/

/-- `xr.open_dataset(f'/cfsr/data/{year}/{v}.{year}.0p5.anl.nc')`. -/
def cfsrPath (v : String) (year : ℕ) : String :=
  "/cfsr/data/" ++ toDecimal year ++ "/" ++ v ++ "." ++ toDecimal year ++ ".0p5.anl.nc"

/-- The four `open_dataset` calls, in program order. -/
def openedFiles : List String :=
  [cfsrPath ("g") startYear, cfsrPath ("t") startYear,
   cfsrPath ("u") startYear, cfsrPath ("v") startYear]

/-- The constant file-name chunk between the graphics directory and the frame
number. -/
def framePre : List Char := ("CFSR_" ++ caseDir ++ "_" ++ prodDir ++ "_").data

/-! ## Concrete sample data (used by witnesses) -/

def dsTw : Dataset :=
  ⟨dateList, [850], [0], [0, 1], MetUnit.K, List.replicate 28 [[[250, 251]]]⟩
def dsZw : Dataset :=
  ⟨dateList, [850], [0], [0, 1], MetUnit.m, List.replicate 28 [[[540, 541]]]⟩
def dsUw : Dataset :=
  ⟨dateList, [850], [0], [0, 1], MetUnit.mps, List.replicate 28 [[[10, 20]]]⟩
def dsVw : Dataset :=
  ⟨dateList, [850], [0], [0, 1], MetUnit.mps, List.replicate 28 [[[0, 5]]]⟩

def T1w : DataArray :=
  ⟨dateList, [0], [0, 1], 850, MetUnit.K, List.replicate 28 [[250, 251]]⟩
def Z1w : DataArray :=
  ⟨dateList, [0], [0, 1], 850, MetUnit.m, List.replicate 28 [[540, 541]]⟩
def U1w : DataArray :=
  ⟨dateList, [0], [0, 1], 850, MetUnit.mps, List.replicate 28 [[10, 20]]⟩
def V1w : DataArray :=
  ⟨dateList, [0], [0, 1], 850, MetUnit.mps, List.replicate 28 [[0, 5]]⟩
def T2w : DataArray :=
  ⟨T1w.times, T1w.lats, T1w.lons, T1w.lev, MetUnit.degC,
   T1w.values.map (fun pl => pl.map (fun row => row.map (fun x => x - 5463 / 20)))⟩
def Z2w : DataArray :=
  ⟨Z1w.times, Z1w.lats, Z1w.lons, Z1w.lev, MetUnit.dam,
   Z1w.values.map (fun pl => pl.map (fun row => row.map (fun x => x / 10)))⟩
def U2w : DataArray :=
  ⟨U1w.times, U1w.lats, U1w.lons, U1w.lev, MetUnit.kts,
   U1w.values.map (fun pl => pl.map (fun row => row.map (fun x => x * 3600 / 1852)))⟩
def V2w : DataArray :=
  ⟨V1w.times, V1w.lats, V1w.lons, V1w.lev, MetUnit.kts,
   V1w.values.map (fun pl => pl.map (fun row => row.map (fun x => x * 3600 / 1852)))⟩

/-! ## Helper lemmas -/

lemma digitChar_isDigit (r : ℕ) : (digitChar r).isDigit = true := by
  unfold digitChar
  split <;> decide

lemma decChars_digits (fuel : ℕ) : ∀ n acc, (∀ c ∈ acc, c.isDigit = true) →
    ∀ c ∈ decChars fuel n acc, c.isDigit = true := by
  induction fuel with
  | zero => intro n acc h c hc; exact h c hc
  | succ f ih =>
    intro n acc h c hc
    have hacc2 : ∀ c ∈ digitChar (n % 10) :: acc, c.isDigit = true := by
      intro c hc2
      rcases List.mem_cons.mp hc2 with rfl | hmem
      · exact digitChar_isDigit _
      · exact h c hmem
    simp only [decChars] at hc
    split at hc
    · exact hacc2 c hc
    · exact ih (n / 10) _ hacc2 c hc

lemma toDecimal_digits (n : ℕ) : ∀ c ∈ (toDecimal n).data, c.isDigit = true :=
  decChars_digits (n + 1) n [] (by intro c hc; cases hc)

lemma frameNum_digits (i : ℕ) : ∀ c ∈ (frameNum i).data, c.isDigit = true := by
  intro c hc
  rcases List.mem_append.mp hc with h | h
  · rw [List.eq_of_mem_replicate h]; decide
  · exact toDecimal_digits i c h

lemma isDigit_ne (c : Char) (h : c.isDigit = true) :
    c ≠ '/' ∧ c ≠ '\n' ∧ c ≠ '.' := by
  refine ⟨?_, ?_, ?_⟩ <;> rintro rfl <;> exact absurd h (by decide)

lemma figName_data (i : ℕ) : (figName i).data =
    graphicsDir.data ++ (framePre ++ (frameNum i).data ++ (".png").data) := by
  simp [figName, framePre, String.data_append, List.append_assoc]

lemma pngquantOut_append (a : List Char) :
    pngquantOut ⟨a ++ (".png").data⟩ = ⟨a ++ ("-fs8.png").data⟩ := by
  unfold pngquantOut
  congr 1
  have h4 : (a ++ (".png").data).length - 4 = a.length := by
    simp [List.length_append]
  rw [h4]
  rw [List.take_left]

lemma quantName_data (i : ℕ) : (quantName i).data =
    graphicsDir.data ++ (framePre ++ (frameNum i).data ++ ("-fs8.png").data) := by
  have h1 : figName i =
      ⟨(graphicsDir.data ++ (framePre ++ (frameNum i).data)) ++ (".png").data⟩ := by
    apply String.ext
    rw [figName_data]
    simp [List.append_assoc]
  unfold quantName
  rw [h1, pngquantOut_append]
  simp [List.append_assoc]

lemma framePre_cons : framePre = 'C' :: framePre.tail := by decide

lemma globPng_dirFile (nm : List Char)
    (hsfx : ([ '.', 'p', 'n', 'g' ] : List Char) <:+ nm)
    (hslash : '/' ∉ nm) (hhead : nm.head? ≠ some ('.' : Char)) :
    globPng graphicsDir ⟨graphicsDir.data ++ nm⟩ = true := by
  unfold globPng
  simp only [List.drop_left]
  simp [List.prefix_append, hsfx, hslash, hhead]

lemma quantName_glob (i : ℕ) : globPng graphicsDir (quantName i) = true := by
  have h := quantName_data i
  have hq : quantName i = ⟨graphicsDir.data ++
      (framePre ++ (frameNum i).data ++ ("-fs8.png").data)⟩ := by
    apply String.ext; rw [h]
  rw [hq]
  apply globPng_dirFile
  · exact List.IsSuffix.trans (by decide) (List.suffix_append _ _)
  · intro hmem
    rcases List.mem_append.mp hmem with h1 | h1
    · rcases List.mem_append.mp h1 with h2 | h2
      · exact absurd h2 (by decide)
      · exact (isDigit_ne _ (frameNum_digits i _ h2)).1 rfl
    · exact absurd h1 (by decide)
  · rw [framePre_cons]
    simp

lemma figName_glob (i : ℕ) : globPng graphicsDir (figName i) = true := by
  have h := figName_data i
  have hq : figName i = ⟨graphicsDir.data ++
      (framePre ++ (frameNum i).data ++ (".png").data)⟩ := by
    apply String.ext; rw [h]
  rw [hq]
  apply globPng_dirFile
  · exact List.IsSuffix.trans (by decide) (List.suffix_append _ _)
  · intro hmem
    rcases List.mem_append.mp hmem with h1 | h1
    · rcases List.mem_append.mp h1 with h2 | h2
      · exact absurd h2 (by decide)
      · exact (isDigit_ne _ (frameNum_digits i _ h2)).1 rfl
    · exact absurd h1 (by decide)
  · rw [framePre_cons]
    simp

lemma mem_saveFile_self (fs : List String) (f : String) : f ∈ saveFile fs f := by
  unfold saveFile
  split
  · assumption
  · simp

lemma mem_saveFile_of_mem (fs : List String) (f g : String) (h : g ∈ fs) :
    g ∈ saveFile fs f := by
  unfold saveFile
  split
  · exact h
  · simp [h]

lemma mem_removeFile (fs : List String) (f g : String) :
    g ∈ removeFile fs f ↔ g ∈ fs ∧ g ≠ f := by
  simp [removeFile]

lemma mapOpt_eq_some (f : α → Option β) (g : α → β) (hfg : ∀ x, f x = some (g x)) :
    ∀ l, mapOpt f l = some (l.map g) := by
  intro l
  induction l with
  | nil => rfl
  | cons a t ih => simp [mapOpt, hfg a, ih]

lemma sel_some_eq (ds : Dataset) (dl : List ℕ) (p : ℤ) (a : DataArray)
    (h : ds.sel dl p = some a) :
    a.times = dl ∧ a.lats = ds.lats ∧ a.lons = ds.lons ∧ a.lev = p ∧
      a.unit = ds.unit := by
  unfold Dataset.sel at h
  cases hm : mapOpt (fun d => selSlice ds d p) dl with
  | none => rw [hm] at h; simp at h
  | some rows =>
    rw [hm] at h
    simp only [Option.map_some', Option.some.injEq] at h
    subst h
    simp

lemma convert_units_eq (a : DataArray) (u : MetUnit) (g : ℚ → ℚ)
    (hg : ∀ x, convertVal a.unit u x = some (g x)) :
    a.convert_units u = some ⟨a.times, a.lats, a.lons, a.lev, u,
      a.values.map (fun pl => pl.map (fun row => row.map g))⟩ := by
  unfold DataArray.convert_units
  rw [mapOpt_eq_some _ (fun pl => pl.map (fun row => row.map g))
    (fun pl => mapOpt_eq_some _ (fun row => row.map g)
      (fun row => mapOpt_eq_some _ g hg row) pl)]
  rfl

lemma convert_some_coords (a b : DataArray) (u : MetUnit)
    (h : a.convert_units u = some b) :
    b.times = a.times ∧ b.lats = a.lats ∧ b.lons = a.lons ∧ b.lev = a.lev ∧
      b.unit = u := by
  unfold DataArray.convert_units at h
  cases hm : mapOpt (fun plane => mapOpt (fun row => mapOpt (convertVal a.unit u) row)
      plane) a.values with
  | none => rw [hm] at h; simp at h
  | some vs =>
    rw [hm] at h
    simp only [Option.map_some', Option.some.injEq] at h
    subst h
    simp

lemma make_sos_map_some (zs : List ℤ) (fs : List String) (i : ℕ) :
    make_sos_map (some zs) fs i =
      some ([FileEvent.save (figName i), FileEvent.pngquant (figName i),
             FileEvent.remove (figName i)],
            removeFile (saveFile (saveFile fs (figName i)) (pngquantOut (figName i)))
              (figName i)) := rfl

lemma runFrames_some (zs : List ℤ) (times : List ℕ) :
    ∀ idxs fs lines, ∃ fsOut,
      runFrames (some zs) times fs lines idxs =
        some (fsOut, lines ++ idxs.map (captionLine times)) := by
  intro idxs
  induction idxs with
  | nil => intro fs lines; exact ⟨fs, by simp [runFrames]⟩
  | cons i rest ih =>
    intro fs lines
    obtain ⟨fsOut, h⟩ := ih
      (removeFile (saveFile (saveFile fs (figName i)) (pngquantOut (figName i)))
        (figName i))
      (lines ++ [captionLine times i])
    refine ⟨fsOut, ?_⟩
    simp [runFrames, make_sos_map_some, h]

/-- A caption line decomposes around its timestamp. -/
lemma captionLine_decomp (times : List ℕ) (i : ℕ) :
    captionLine times i =
      "CFSR 850 hPa Z/T/Wind " ++ fmtTime (times.getD i 0) ++ " \n" := rfl

lemma zfill_no_newline (w : ℕ) (s : String) (hs : ∀ c ∈ s.data, c.isDigit = true) :
    ∀ c ∈ (zfill w s).data, c ≠ '\n' := by
  intro c hc
  rcases List.mem_append.mp hc with h | h
  · rw [List.eq_of_mem_replicate h]; decide
  · exact (isDigit_ne c (hs c h)).2.1

lemma count_newline_eq_zero (s : String) (hs : ∀ c ∈ s.data, c ≠ '\n') :
    s.data.count '\n' = 0 :=
  List.count_eq_zero.mpr (fun h => hs _ h rfl)

lemma ne_of_not_mem_lit (l : List Char) (x : Char) (hl : x ∉ l) :
    ∀ c ∈ l, c ≠ x :=
  fun _ hc hceq => hl (hceq ▸ hc)

lemma fmtTime_no_newline (t : ℕ) : ∀ c ∈ (fmtTime t).data, c ≠ '\n' := by
  intro c hc
  unfold fmtTime at hc
  simp only [String.data_append] at hc
  rcases List.mem_append.mp hc with h | h
  · rcases List.mem_append.mp h with h | h
    · rcases List.mem_append.mp h with h | h
      · rcases List.mem_append.mp h with h | h
        · rcases List.mem_append.mp h with h | h
          · rcases List.mem_append.mp h with h | h
            · rcases List.mem_append.mp h with h | h
              · exact zfill_no_newline 2 _ (toDecimal_digits _) c h
              · exact ne_of_not_mem_lit _ _ (by decide) c h
            · exact zfill_no_newline 2 _ (toDecimal_digits _) c h
          · exact ne_of_not_mem_lit _ _ (by decide) c h
        · exact zfill_no_newline 4 _ (toDecimal_digits _) c h
      · exact ne_of_not_mem_lit _ _ (by decide) c h
    · exact zfill_no_newline 2 _ (toDecimal_digits _) c h
  · exact ne_of_not_mem_lit _ _ (by decide) c h

lemma captionLine_one_newline (times : List ℕ) (i : ℕ) :
    (captionLine times i).data.count '\n' = 1 := by
  rw [captionLine_decomp]
  simp only [String.data_append, List.count_append]
  rw [count_newline_eq_zero _ (fmtTime_no_newline _)]
  decide

/-! Lexicographic-order helpers on character lists. -/

lemma lex_append_left (P : List Char) {X Y : List Char} (h : X < Y) :
    P ++ X < P ++ Y := by
  induction P with
  | nil => exact h
  | cons c t ih => exact List.Lex.cons ih

lemma lex_append_of_length_eq : ∀ (a b : List Char), a.length = b.length →
    a < b → ∀ s t : List Char, a ++ s < b ++ t := by
  intro a
  induction a with
  | nil =>
    intro b hlen h2
    cases b with
    | nil => cases h2
    | cons y ys => simp at hlen
  | cons x xs ih =>
    intro b hlen h2
    cases b with
    | nil => simp at hlen
    | cons y ys =>
      intro s t
      cases h2 with
      | cons htl => exact List.Lex.cons (ih ys (by simpa using hlen) htl s t)
      | rel hr => exact List.Lex.rel hr

lemma pad_row_eq (row : List ℚ) :
    (match row with | [] => ([] : List ℚ) | x :: _ => row ++ [x]) =
      row ++ row.take 1 := by
  cases row <;> simp

/-! ## Claims -/

/-- C1: a run that renders `n` frames writes exactly `n` caption lines to the
labels file; for every frame index `i` the `(i+1)`-th line is the caption for
frame `i`, containing the formatted timestamp of the `i`-th element of the
time coordinate, and captions appear in the same order as the frames are
rendered (one newline terminates each caption). -/
theorem labels_one_caption_per_frame (zs : List ℤ) (times : List ℕ)
    (fs : List String) (n : ℕ) :
    ∃ fsOut lines,
      renderRun (some zs) times fs n = some (fsOut, lines) ∧
      lines.length = n ∧
      lines = (List.range n).map (captionLine times) ∧
      (∀ i, i < n → lines[i]? = some (captionLine times i)) ∧
      (∀ i, i < n → ∃ p q, captionLine times i =
        p ++ fmtTime (times.getD i 0) ++ q) ∧
      (∀ i, i < n → (captionLine times i).data.count '\n' = 1) := by
  obtain ⟨fsOut, h⟩ := runFrames_some zs times (List.range n) fs []
  refine ⟨fsOut, (List.range n).map (captionLine times),
    by simpa [renderRun] using h, by simp, rfl, ?_, ?_, ?_⟩
  · intro i hi
    simp [List.getElem?_map, hi]
  · intro i _
    exact ⟨"CFSR 850 hPa Z/T/Wind ", " \n", captionLine_decomp times i⟩
  · intro i _
    exact captionLine_one_newline times i

/-- Witness for C1 at the run's own configuration, two frames. -/
theorem labels_one_caption_per_frame_witness :
    ∃ fsOut lines,
      renderRun (some (arange 60 183 3)) dateList [] 2 = some (fsOut, lines) ∧
      lines[1]? = some (captionLine dateList 1) ∧
      (∃ p q, captionLine dateList 1 = p ++ fmtTime (dateList.getD 1 0) ++ q) ∧
      (captionLine dateList 1).data.count '\n' = 1 := by
  obtain ⟨fsOut, lines, h1, _, _, h4, h5, h6⟩ :=
    labels_one_caption_per_frame (arange 60 183 3) dateList [] 2
  exact ⟨fsOut, lines, h1, h4 1 (by decide), h5 1 (by decide), h6 1 (by decide)⟩

/-- C2: the cyclic-point augmentation appends to each row (a field at fixed
latitude) a duplicate of its first entry, so a field with `L` longitude
columns gains an `(L+1)`-th column equal to its first; the longitude vector
is extended by one entry equal to the first longitude plus 360; the latitude
vector is unchanged. -/
theorem add_cyclic_point_spec (data : List (List ℚ)) (lons lats : List ℚ)
    (x : ℚ) (hlon : lons.head? = some x)
    (hrows : ∀ row ∈ data, row.length = lons.length) :
    (add_cyclic_point data lons).1 = data.map (fun row => row ++ row.take 1) ∧
    (∀ row ∈ data, (row ++ row.take 1).length = lons.length + 1) ∧
    (∀ row ∈ data, (row ++ row.take 1).getLast? = row.head?) ∧
    (add_cyclic_point data lons).2 = lons ++ [x + 360] ∧
    (add_cyclic_point data lons).2.length = lons.length + 1 ∧
    (add_cyclic_point data lons).2.getLast? = some (x + 360) ∧
    cyclicLats lats = lats := by
  obtain ⟨xs, rfl⟩ : ∃ xs, lons = x :: xs := by
    cases lons with
    | nil => simp at hlon
    | cons y ys => simp at hlon; exact ⟨ys, by rw [hlon]⟩
  have hpos : ∀ row ∈ data, row ≠ [] := by
    intro row hrow hnil
    have := hrows row hrow
    rw [hnil] at this
    simp at this
  refine ⟨?_, ?_, ?_, ?_, ?_, ?_, rfl⟩
  · unfold add_cyclic_point
    exact List.map_congr_left (fun row _ => pad_row_eq row)
  · intro row hrow
    have hne := hpos row hrow
    cases row with
    | nil => exact absurd rfl hne
    | cons a t =>
      have := hrows _ hrow
      simp at this ⊢
      omega
  · intro row hrow
    have hne := hpos row hrow
    cases row with
    | nil => exact absurd rfl hne
    | cons a t =>
      show ((a :: t) ++ [a]).getLast? = some a
      rw [List.getLast?_append_of_ne_nil _ (by simp)]
      simp
  · rfl
  · simp [add_cyclic_point]
  · show ((x :: xs) ++ [x + 360]).getLast? = some (x + 360)
    rw [List.getLast?_append_of_ne_nil _ (by simp)]
    simp

/-- Witness for C2 on a concrete 2 × 2 field. -/
theorem add_cyclic_point_spec_witness :
    (add_cyclic_point [[1, 2], [3, 4]] [0, 1/2]).1 =
      ([[1, 2], [3, 4]] : List (List ℚ)).map (fun row => row ++ row.take 1) ∧
    (add_cyclic_point [[1, 2], [3, 4]] [0, 1/2]).2 = [0, 1/2] ++ [(0 : ℚ) + 360] ∧
    cyclicLats [7] = [7] := by
  obtain ⟨h1, _, _, h4, _, _, h7⟩ :=
    add_cyclic_point_spec [[1, 2], [3, 4]] [0, 1/2] [7] 0 (by decide)
      (by intro row hrow; fin_cases hrow <;> decide)
  exact ⟨h1, h4, h7⟩

lemma add_cyclic_snd_congr (d₁ d₂ : List (List ℚ)) (lons : List ℚ) :
    (add_cyclic_point d₁ lons).2 = (add_cyclic_point d₂ lons).2 := rfl

/-- C3: after selection the four fields carry identical time, latitude and
longitude coordinate vectors (the input files sharing one spatial grid);
unit conversion preserves them; and the per-frame cyclic padding extends the
same longitude vector identically for all four fields — so the coordinates
taken from T are valid for plotting all four. -/
theorem fields_share_coords
    (dsZ dsT dsU dsV : Dataset) (Z1 T1 U1 V1 Z2 T2 U2 V2 : DataArray)
    (hlatZ : dsZ.lats = dsT.lats) (hlatU : dsU.lats = dsT.lats)
    (hlatV : dsV.lats = dsT.lats)
    (hlonZ : dsZ.lons = dsT.lons) (hlonU : dsU.lons = dsT.lons)
    (hlonV : dsV.lons = dsT.lons)
    (hT : dsT.sel dateList pLevel = some T1)
    (hZ : dsZ.sel dateList pLevel = some Z1)
    (hU : dsU.sel dateList pLevel = some U1)
    (hV : dsV.sel dateList pLevel = some V1)
    (hZ2 : Z1.convert_units MetUnit.dam = some Z2)
    (hT2 : T1.convert_units MetUnit.degC = some T2)
    (hU2 : U1.convert_units MetUnit.kts = some U2)
    (hV2 : V1.convert_units MetUnit.kts = some V2) :
    (Z1.times = T1.times ∧ U1.times = T1.times ∧ V1.times = T1.times ∧
     Z1.lats = T1.lats ∧ U1.lats = T1.lats ∧ V1.lats = T1.lats ∧
     Z1.lons = T1.lons ∧ U1.lons = T1.lons ∧ V1.lons = T1.lons) ∧
    (Z2.times = T2.times ∧ U2.times = T2.times ∧ V2.times = T2.times ∧
     Z2.lats = T2.lats ∧ U2.lats = T2.lats ∧ V2.lats = T2.lats ∧
     Z2.lons = T2.lons ∧ U2.lons = T2.lons ∧ V2.lons = T2.lons) ∧
    (∀ i : ℕ,
      (add_cyclic_point (Z2.sliceAt i) Z2.lons).2 =
        (add_cyclic_point (T2.sliceAt i) T2.lons).2 ∧
      (add_cyclic_point (U2.sliceAt i) U2.lons).2 =
        (add_cyclic_point (T2.sliceAt i) T2.lons).2 ∧
      (add_cyclic_point (V2.sliceAt i) V2.lons).2 =
        (add_cyclic_point (T2.sliceAt i) T2.lons).2) := by
  obtain ⟨ht1, hla1, hlo1, _, _⟩ := sel_some_eq _ _ _ _ hT
  obtain ⟨ht2, hla2, hlo2, _, _⟩ := sel_some_eq _ _ _ _ hZ
  obtain ⟨ht3, hla3, hlo3, _, _⟩ := sel_some_eq _ _ _ _ hU
  obtain ⟨ht4, hla4, hlo4, _, _⟩ := sel_some_eq _ _ _ _ hV
  obtain ⟨ct1, cla1, clo1, _, _⟩ := convert_some_coords _ _ _ hT2
  obtain ⟨ct2, cla2, clo2, _, _⟩ := convert_some_coords _ _ _ hZ2
  obtain ⟨ct3, cla3, clo3, _, _⟩ := convert_some_coords _ _ _ hU2
  obtain ⟨ct4, cla4, clo4, _, _⟩ := convert_some_coords _ _ _ hV2
  have stage1 : Z1.times = T1.times ∧ U1.times = T1.times ∧ V1.times = T1.times ∧
      Z1.lats = T1.lats ∧ U1.lats = T1.lats ∧ V1.lats = T1.lats ∧
      Z1.lons = T1.lons ∧ U1.lons = T1.lons ∧ V1.lons = T1.lons := by
    refine ⟨?_, ?_, ?_, ?_, ?_, ?_, ?_, ?_, ?_⟩ <;> simp_all
  have stage2 : Z2.lons = T2.lons ∧ U2.lons = T2.lons ∧ V2.lons = T2.lons := by
    refine ⟨?_, ?_, ?_⟩ <;> simp_all
  refine ⟨stage1, ⟨?_, ?_, ?_, ?_, ?_, ?_, stage2.1, stage2.2.1, stage2.2.2⟩, ?_⟩
  · simp_all
  · simp_all
  · simp_all
  · simp_all
  · simp_all
  · simp_all
  · intro i
    refine ⟨?_, ?_, ?_⟩
    · rw [stage2.1]; exact add_cyclic_snd_congr _ _ _
    · rw [stage2.2.1]; exact add_cyclic_snd_congr _ _ _
    · rw [stage2.2.2]; exact add_cyclic_snd_congr _ _ _

/-- Witness for C3 on a concrete quadruple of datasets sharing one grid. -/
theorem fields_share_coords_witness :
    (Z1w.times = T1w.times ∧ Z1w.lats = T1w.lats ∧ Z1w.lons = T1w.lons) ∧
    (Z2w.lons = T2w.lons) ∧
    (add_cyclic_point (Z2w.sliceAt 0) Z2w.lons).2 =
      (add_cyclic_point (T2w.sliceAt 0) T2w.lons).2 := by
  obtain ⟨h1, h2, h3⟩ := fields_share_coords dsZw dsTw dsUw dsVw
    Z1w T1w U1w V1w Z2w T2w U2w V2w rfl rfl rfl rfl rfl rfl
    (by decide) (by decide) (by decide) (by decide)
    (convert_units_eq Z1w MetUnit.dam _ (fun _ => rfl))
    (convert_units_eq T1w MetUnit.degC _ (fun _ => rfl))
    (convert_units_eq U1w MetUnit.kts _ (fun _ => rfl))
    (convert_units_eq V1w MetUnit.kts _ (fun _ => rfl))
  exact ⟨⟨h1.1, h1.2.2.2.1, h1.2.2.2.2.2.2.1⟩, h2.2.2.2.2.2.2.1, (h3 0).1⟩

/-- Files not under the graphics directory are untouched by the PNG sweep. -/
lemma sweep_keeps_outside (fs : List String) (f : String)
    (h : ¬ (graphicsDir.data <+: f.data)) :
    f ∈ deletePriorPngs fs ↔ f ∈ fs := by
  unfold deletePriorPngs globPng
  simp [List.mem_filter, h]

/-- C4: running the sweep deletes every PNG of a prior run in the graphics
directory (both quantized and original frame files match the glob), and no
path outside the graphics directory — in particular anything under the
labels, media or playlist directories — is affected. -/
theorem prior_pngs_deleted :
    (∀ fs i, quantName i ∉ deletePriorPngs fs ∧ figName i ∉ deletePriorPngs fs) ∧
    (∀ fs (f : String), ¬ (graphicsDir.data <+: f.data) →
      (f ∈ deletePriorPngs fs ↔ f ∈ fs)) ∧
    (∀ fs (f : String),
      (labelsDir.data <+: f.data) ∨ (mediaDir.data <+: f.data) ∨
        (playlistDir.data <+: f.data) →
      (f ∈ deletePriorPngs fs ↔ f ∈ fs)) := by
  refine ⟨?_, fun fs f h => sweep_keeps_outside fs f h, ?_⟩
  · intro fs i
    constructor
    · simp [deletePriorPngs, List.mem_filter, quantName_glob i]
    · simp [deletePriorPngs, List.mem_filter, figName_glob i]
  · intro fs f h
    apply sweep_keeps_outside
    intro hg
    rcases h with h | h | h <;>
      rcases List.prefix_or_prefix_of_prefix hg h with hc | hc <;>
        exact absurd hc (by decide)

/-- Witness for C4: a quantized frame of a prior run is removed while the
labels file survives. -/
theorem prior_pngs_deleted_witness :
    quantName 0 ∉ deletePriorPngs [quantName 0, labelsDir ++ "labels.txt"] ∧
    ((labelsDir ++ "labels.txt") ∈
        deletePriorPngs [quantName 0, labelsDir ++ "labels.txt"] ↔
      (labelsDir ++ "labels.txt") ∈ [quantName 0, labelsDir ++ "labels.txt"]) := by
  refine ⟨(prior_pngs_deleted.1 [quantName 0, labelsDir ++ "labels.txt"] 0).1, ?_⟩
  exact prior_pngs_deleted.2.2 [quantName 0, labelsDir ++ "labels.txt"]
    (labelsDir ++ "labels.txt") (Or.inl (by decide))

lemma quantName_ne_figName (i : ℕ) : quantName i ≠ figName i := by
  intro h
  have hd := congrArg String.data h
  rw [quantName_data, figName_data] at hd
  have hl := congrArg List.length hd
  simp [List.length_append] at hl

lemma zLevelsFor_pLevel : zLevelsFor pLevel = some (arange 60 183 3) := rfl

/-- C5: for each frame index the renderer saves one full-resolution PNG whose
name embeds the zero-padded frame index, then runs pngquant on exactly that
PNG, and the quantized output is the file that remains in the graphics
directory. -/
theorem frame_render_and_quantize (fs : List String) (i : ℕ)
    (tr : List FileEvent) (fs' : List String)
    (h : make_sos_map (zLevelsFor pLevel) fs i = some (tr, fs')) :
    tr = [FileEvent.save (figName i), FileEvent.pngquant (figName i),
          FileEvent.remove (figName i)] ∧
    (∃ p q, (figName i).data = p ++ (frameNum i).data ++ q) ∧
    (∃ p, (figName i).data = p ++ (".png").data) ∧
    quantName i ∈ fs' ∧
    (graphicsDir.data <+: (quantName i).data) := by
  rw [zLevelsFor_pLevel, make_sos_map_some] at h
  simp only [Option.some.injEq, Prod.mk.injEq] at h
  obtain ⟨htr, hfs⟩ := h
  refine ⟨htr.symm, ?_, ?_, ?_, ?_⟩
  · exact ⟨graphicsDir.data ++ framePre, (".png").data,
      by rw [figName_data]; simp [List.append_assoc]⟩
  · exact ⟨graphicsDir.data ++ (framePre ++ (frameNum i).data),
      by rw [figName_data]; simp [List.append_assoc]⟩
  · rw [← hfs]
    rw [mem_removeFile]
    exact ⟨mem_saveFile_self _ _, quantName_ne_figName i⟩
  · rw [quantName_data]
    exact List.prefix_append _ _

/-- Witness for C5 at frame 0 on an empty directory. -/
theorem frame_render_and_quantize_witness :
    make_sos_map (zLevelsFor pLevel) [] 0 =
      some ([FileEvent.save (figName 0), FileEvent.pngquant (figName 0),
             FileEvent.remove (figName 0)], [quantName 0]) ∧
    quantName 0 ∈ ([quantName 0] : List String) ∧
    (∃ p q, (figName 0).data = p ++ (frameNum 0).data ++ q) := by
  have h : make_sos_map (zLevelsFor pLevel) [] 0 =
      some ([FileEvent.save (figName 0), FileEvent.pngquant (figName 0),
             FileEvent.remove (figName 0)], [quantName 0]) := by decide
  obtain ⟨_, h2, _, h4, _⟩ := frame_render_and_quantize [] 0 _ _ h
  exact ⟨h, h4, h2⟩

/-- C6: converting units rescales height from meters to decameters (divide by
10), wind from m/s to knots (multiply by 3600/1852), temperature from Kelvin
to Celsius (subtract 273.15), retags the units accordingly, and alters no
coordinate vector. -/
theorem unit_conversion (Z1 T1 U1 V1 Z2 T2 U2 V2 : DataArray)
    (hZu : Z1.unit = MetUnit.m) (hTu : T1.unit = MetUnit.K)
    (hUu : U1.unit = MetUnit.mps) (hVu : V1.unit = MetUnit.mps)
    (hZ : Z1.convert_units MetUnit.dam = some Z2)
    (hT : T1.convert_units MetUnit.degC = some T2)
    (hU : U1.convert_units MetUnit.kts = some U2)
    (hV : V1.convert_units MetUnit.kts = some V2) :
    Z2.unit = MetUnit.dam ∧ U2.unit = MetUnit.kts ∧ V2.unit = MetUnit.kts ∧
    T2.unit = MetUnit.degC ∧
    Z2.values = Z1.values.map
      (fun pl => pl.map (fun row => row.map (fun x => x / 10))) ∧
    U2.values = U1.values.map
      (fun pl => pl.map (fun row => row.map (fun x => x * 3600 / 1852))) ∧
    V2.values = V1.values.map
      (fun pl => pl.map (fun row => row.map (fun x => x * 3600 / 1852))) ∧
    T2.values = T1.values.map
      (fun pl => pl.map (fun row => row.map (fun x => x - 5463 / 20))) ∧
    (Z2.times = Z1.times ∧ Z2.lats = Z1.lats ∧ Z2.lons = Z1.lons ∧
      Z2.lev = Z1.lev) ∧
    (U2.times = U1.times ∧ U2.lats = U1.lats ∧ U2.lons = U1.lons ∧
      U2.lev = U1.lev) ∧
    (V2.times = V1.times ∧ V2.lats = V1.lats ∧ V2.lons = V1.lons ∧
      V2.lev = V1.lev) ∧
    (T2.times = T1.times ∧ T2.lats = T1.lats ∧ T2.lons = T1.lons ∧
      T2.lev = T1.lev) := by
  have eZ := convert_units_eq Z1 MetUnit.dam (fun x => x / 10)
    (by rw [hZu]; intro x; rfl)
  have eT := convert_units_eq T1 MetUnit.degC (fun x => x - 5463 / 20)
    (by rw [hTu]; intro x; rfl)
  have eU := convert_units_eq U1 MetUnit.kts (fun x => x * 3600 / 1852)
    (by rw [hUu]; intro x; rfl)
  have eV := convert_units_eq V1 MetUnit.kts (fun x => x * 3600 / 1852)
    (by rw [hVu]; intro x; rfl)
  rw [eZ] at hZ
  rw [eT] at hT
  rw [eU] at hU
  rw [eV] at hV
  obtain rfl := Option.some.inj hZ
  obtain rfl := Option.some.inj hT
  obtain rfl := Option.some.inj hU
  obtain rfl := Option.some.inj hV
  simp

/-- Witness for C6 on the concrete sample fields. -/
theorem unit_conversion_witness :
    Z2w.unit = MetUnit.dam ∧ T2w.unit = MetUnit.degC ∧
    Z2w.values = Z1w.values.map
      (fun pl => pl.map (fun row => row.map (fun x => x / 10))) ∧
    Z2w.lons = Z1w.lons := by
  obtain ⟨h1, _, _, h4, h5, _, _, _, hco, _⟩ :=
    unit_conversion Z1w T1w U1w V1w Z2w T2w U2w V2w rfl rfl rfl rfl
      (convert_units_eq Z1w MetUnit.dam _ (fun _ => rfl))
      (convert_units_eq T1w MetUnit.degC _ (fun _ => rfl))
      (convert_units_eq U1w MetUnit.kts _ (fun _ => rfl))
      (convert_units_eq V1w MetUnit.kts _ (fun _ => rfl))
  exact ⟨h1, h4, h5, hco.2.2.1⟩

/-- C7: the loader opens exactly four files for the chosen year, one per
variable g, t, u, v; the subsetter selects the single pressure level 850 hPa
and the 6-hour-cadence timestamps from the start to the end date/time
inclusive (28 of them for the configured range), with no latitude or
longitude subsetting. -/
theorem loader_and_subsetter :
    openedFiles = ["/cfsr/data/1993/g.1993.0p5.anl.nc",
      "/cfsr/data/1993/t.1993.0p5.anl.nc", "/cfsr/data/1993/u.1993.0p5.anl.nc",
      "/cfsr/data/1993/v.1993.0p5.anl.nc"] ∧
    openedFiles.length = 4 ∧
    pLevel = 850 ∧
    dateList = (List.range 28).map (fun k => startHours + 6 * k) ∧
    nTimes = 28 ∧
    dateList.head? = some startHours ∧
    dateList.getLast? = some endHours ∧
    (∀ k, k < 27 → dateList.getD (k + 1) 0 = dateList.getD k 0 + 6) ∧
    (∀ (ds : Dataset) (a : DataArray), ds.sel dateList pLevel = some a →
      a.lats = ds.lats ∧ a.lons = ds.lons ∧ a.times = dateList ∧ a.lev = 850) := by
  refine ⟨by decide, by decide, by decide, by decide, by decide, by decide,
    by decide, by decide, ?_⟩
  intro ds a h
  obtain ⟨ht, hla, hlo, hlev, _⟩ := sel_some_eq _ _ _ _ h
  exact ⟨hla, hlo, ht, hlev⟩

/-- Witness for C7: selection on a concrete dataset keeps its spatial grid. -/
theorem loader_and_subsetter_witness :
    T1w.lats = dsTw.lats ∧ T1w.lons = dsTw.lons ∧ T1w.times = dateList ∧
      T1w.lev = 850 :=
  loader_and_subsetter.2.2.2.2.2.2.2.2 dsTw T1w (by decide)

/-- C8: the playlist is exactly the fixed sequence of `key = value` lines, in
order: name, description, pip, pipheight, pipvertical, label, layer,
layerdata, firstdwell, lastdwell, fps, zrotationenable, zfps, subcategory,
Creator — each terminated by a newline. -/
theorem playlist_fixed_schema :
    playlistWrites =
      [ "name = CFSR T/Z/Wind Superstorm 93\n",
        "description = \x7b\x7bCFSR T/Z/Wind Superstorm 93\x7d\x7d\n",
        "pip = ../labels/colorbar.png\n",
        "pipheight = 10\n",
        "pipvertical = -35\n",
        "label = ../labels/labels.txt\n",
        "layer = Grids\n",
        "layerdata = ../2048\n",
        "firstdwell = 2000\n",
        "lastdwell = 3000\n",
        "fps = 8\n",
        "zrotationenable = 1\n",
        "zfps = 30\n",
        "subcategory = CFSR\n",
        "Creator = Rovin Lazyle\n" ] ∧
    playlistWrites.length = 15 ∧
    (∀ l ∈ playlistWrites, ∃ k v, l = k ++ " = " ++ v ++ "\n") := by
  refine ⟨by decide, by decide, ?_⟩
  intro l hl
  simp only [playlistWrites, List.mem_cons, List.not_mem_nil, or_false] at hl
  rcases hl with rfl | rfl | rfl | rfl | rfl | rfl | rfl | rfl | rfl | rfl |
    rfl | rfl | rfl | rfl | rfl
  · exact ⟨"name", nameStr, rfl⟩
  · exact ⟨"description", descriptionStr, rfl⟩
  · exact ⟨"pip", "../labels/colorbar.png", by decide⟩
  · exact ⟨"pipheight", "10", by decide⟩
  · exact ⟨"pipvertical", "-35", by decide⟩
  · exact ⟨"label", "../labels/labels.txt", by decide⟩
  · exact ⟨"layer", "Grids", by decide⟩
  · exact ⟨"layerdata", "../2048", by decide⟩
  · exact ⟨"firstdwell", "2000", by decide⟩
  · exact ⟨"lastdwell", "3000", by decide⟩
  · exact ⟨"fps", "8", by decide⟩
  · exact ⟨"zrotationenable", "1", by decide⟩
  · exact ⟨"zfps", "30", by decide⟩
  · exact ⟨"subcategory", subCat, rfl⟩
  · exact ⟨"Creator", creaName, rfl⟩

/-- Witness for C8 at the fps line. -/
theorem playlist_fixed_schema_witness :
    ∃ k v, ("fps = 8" ++ "\n" : String) = k ++ " = " ++ v ++ "\n" :=
  playlist_fixed_schema.2.2 ("fps = 8" ++ "\n") (by decide)

/-- C9: `zLevels` is assigned only for the pressure levels 1000, 850, 700,
500, 300 and 200 hPa — at 850 hPa the decameter values 60, 63, …, 180 — and
for any other level the chain assigns nothing, so every subsequent frame
rendering fails on the unbound name. -/
theorem zlevels_only_known_levels :
    (∀ p : ℤ, (zLevelsFor p).isSome = true ↔
      (p = 1000 ∨ p = 850 ∨ p = 700 ∨ p = 500 ∨ p = 300 ∨ p = 200)) ∧
    zLevelsFor 850 = some ((List.range 41).map (fun k => 60 + 3 * (k : ℤ))) ∧
    (arange 60 183 3).head? = some 60 ∧
    (arange 60 183 3).getLast? = some 180 ∧
    (∀ p : ℤ, zLevelsFor p = none → ∀ fs i, make_sos_map (zLevelsFor p) fs i = none) ∧
    (∀ p : ℤ, ¬(p = 1000 ∨ p = 850 ∨ p = 700 ∨ p = 500 ∨ p = 300 ∨ p = 200) →
      zLevelsFor p = none) := by
  refine ⟨?_, by decide, by decide, by decide, ?_, ?_⟩
  · intro p
    unfold zLevelsFor
    split_ifs <;> simp_all
  · intro p hp fs i
    rw [hp]
    rfl
  · intro p hp
    unfold zLevelsFor
    split_ifs <;> first | rfl | (exfalso; tauto)

/-- Witness for C9 at the unsupported level 925 hPa. -/
theorem zlevels_only_known_levels_witness :
    zLevelsFor 925 = none ∧
    make_sos_map (zLevelsFor 925) [] 0 = none ∧
    (zLevelsFor 850).isSome = true := by
  obtain ⟨hiff, _, _, _, hfail, hnone⟩ := zlevels_only_known_levels
  have h925 : zLevelsFor 925 = none := hnone 925 (by decide)
  exact ⟨h925, hfail 925 h925 [] 0, (hiff 850).mpr (Or.inr (Or.inl rfl))⟩

lemma quantName_lt (i j : ℕ) (hi2 : (frameNum i).data.length = 2)
    (hj2 : (frameNum j).data.length = 2)
    (hlt : (frameNum i).data < (frameNum j).data) :
    (quantName i).data < (quantName j).data := by
  rw [quantName_data, quantName_data]
  apply lex_append_left
  rw [List.append_assoc, List.append_assoc]
  apply lex_append_left
  exact lex_append_of_length_eq _ _ (hi2.trans hj2.symm) hlt _ _

set_option maxRecDepth 8000 in
/-- C10: after `make_sos_map(i)` the original full-resolution PNG is deleted
and only the quantized `-fs8.png` file remains for that frame; the frame
index is zero-padded to exactly two characters, so the frame file names are
distinct and lexicographically ordered by frame index for indices below 100,
while the ordering fails from index 100 on. -/
theorem frame_file_retention :
    (∀ fs i tr fs', make_sos_map (zLevelsFor pLevel) fs i = some (tr, fs') →
      figName i ∉ fs' ∧ quantName i ∈ fs' ∧
      (∃ p, (quantName i).data = p ++ ("-fs8.png").data)) ∧
    (∀ i, i < 100 → (frameNum i).data.length = 2) ∧
    (∀ j, j < 100 → ∀ i, i < j →
      quantName i ≠ quantName j ∧ (quantName i).data < (quantName j).data) ∧
    ¬ ((quantName 99).data < (quantName 100).data) := by
  have hlen : ∀ i, i < 100 → (frameNum i).data.length = 2 := by decide
  have hfr : ∀ j, j < 100 → ∀ i, i < j → (frameNum i).data < (frameNum j).data := by
    decide
  refine ⟨?_, hlen, ?_, by decide⟩
  · intro fs i tr fs' h
    rw [zLevelsFor_pLevel, make_sos_map_some] at h
    simp only [Option.some.injEq, Prod.mk.injEq] at h
    obtain ⟨_, hfs⟩ := h
    refine ⟨?_, ?_, ?_⟩
    · rw [← hfs, mem_removeFile]
      rintro ⟨_, hne⟩
      exact hne rfl
    · rw [← hfs, mem_removeFile]
      exact ⟨mem_saveFile_self _ _, quantName_ne_figName i⟩
    · exact ⟨graphicsDir.data ++ (framePre ++ (frameNum i).data),
        by rw [quantName_data]; simp [List.append_assoc]⟩
  · intro j hj i hij
    have hlt := quantName_lt i j (hlen i (hij.trans hj)) (hlen j hj)
      (hfr j hj i hij)
    exact ⟨fun h => absurd (congrArg String.data h) (ne_of_lt hlt), hlt⟩

/-- Witness for C10 at frames 0 and 1 on an empty directory. -/
theorem frame_file_retention_witness :
    figName 0 ∉ ([quantName 0] : List String) ∧
    quantName 0 ∈ ([quantName 0] : List String) ∧
    quantName 0 ≠ quantName 1 ∧
    (quantName 0).data < (quantName 1).data := by
  have h : make_sos_map (zLevelsFor pLevel) [] 0 =
      some ([FileEvent.save (figName 0), FileEvent.pngquant (figName 0),
             FileEvent.remove (figName 0)], [quantName 0]) := by decide
  obtain ⟨h1, h2, _⟩ := frame_file_retention.1 [] 0 _ _ h
  obtain ⟨h3, h4⟩ := frame_file_retention.2.2.1 1 (by decide) 0 (by decide)
  exact ⟨h1, h2, h3, h4⟩

end SosCfsr
